import Mathlib

/-!
# Verification of `geo_to_hca/utils/sra_utils.py`

A shallow embedding of the module's seven functions. Each function is modelled
as a pure Lean function over an explicit environment `Env` that supplies the
outcomes of the external effects the Python code performs (HTTP GET via
`requests.get`, JSON parsing via `Response.json()`, XML parsing via
`xml.etree.ElementTree.fromstring`, and CSV fetching/parsing via
`pandas.read_csv`). Each operation returns the list of observable events it
performs (pacing sleeps and HTTP GET attempts, in order) together with its
Python-level outcome: a normal return value or a raised exception, as
`Except PyError`.
-/

/-- A JSON value, as produced by `Response.json()`. Object fields keep
insertion order, as Python dicts do. -/
inductive Json where
  | null : Json
  | bool (b : Bool) : Json
  | num (n : Int) : Json
  | str (s : String) : Json
  | arr (xs : List Json) : Json
  | obj (fields : List (String × Json)) : Json

/-- A parsed XML element, as produced by `xml.etree.ElementTree.fromstring`:
a tag together with its immediate children, in document order. (Attributes and
text are irrelevant to this module and are omitted.) -/
inductive Xml where
  | elem (tag : String) (children : List Xml) : Xml

/-- The tag of an XML element. -/
def Xml.tag : Xml → String
  | .elem t _ => t

/-- The immediate children of an XML element, in document order. -/
def Xml.children : Xml → List Xml
  | .elem _ cs => cs

/-- An HTTP response as seen by the code: its status code and its raw body. -/
structure HttpResponse where
  status_code : Nat
  content : String
  deriving DecidableEq, Repr

/-- The accession argument stored in a raised `NotFoundSRA`: the call sites
pass either a single accession string or a Python list of them. -/
inductive AccArg where
  | single (a : String) : AccArg
  | many (as : List String) : AccArg
  deriving DecidableEq, Repr

/-- Modelled from the spec: the typed error class `NotFoundSRA` lives in
`geo_to_hca.utils.handle_errors`, which is not under `src/`; per the spec it
carries the requested accession(s) and the raw HTTP response
(constructor `notFoundSRA`). The remaining constructors model the Python
builtin exceptions the code in `src/` can raise or propagate:
`AssertionError` from the GEO-pattern check, `requests.HTTPError` from
`raise_for_status`, `NameError` for an unbound local, `KeyError` /
`TypeError` / `AttributeError` from the JSON walking, JSON / XML parse
errors, pandas errors from `read_csv`, connection-level errors from
`requests.get`, and the generic `Exception(f'Failed to get SRP accessions
for {geo}: {e}')` re-raised by the GEO-resolution `except` block
(constructor `wrappedException`). -/
inductive PyError where
  | assertionError (msg : String) : PyError
  | notFoundSRA (response : HttpResponse) (accessions : AccArg) : PyError
  | httpError (status : Nat) : PyError
  | nameError (name : String) : PyError
  | keyError (key : String) : PyError
  | typeError (msg : String) : PyError
  | attributeError (attr : String) : PyError
  | jsonDecodeError (msg : String) : PyError
  | xmlParseError (msg : String) : PyError
  | pandasError (msg : String) : PyError
  | connectionError (msg : String) : PyError
  | wrappedException (msg : String) : PyError
  deriving DecidableEq, Repr

/-- An observable event performed by an operation: a pacing sleep (duration
in thousandths of a time unit, so `sleep(0.5)` is `sleepEv 500`) or an HTTP
GET attempt at a URL. -/
inductive Event where
  | sleepEv (millis : Nat) : Event
  | httpGetEv (url : String) : Event
  deriving DecidableEq, Repr

/-- The tabular result of `pandas.read_csv`: rows of string fields. Consumed
as an opaque value by this module. -/
abbrev Table := List (List String)

/-- The environment of external effects: for each URL, what `requests.get`
returns (or raises); what `Response.json()`, `xml.etree.ElementTree.fromstring`
and `pandas.read_csv` yield on a given body/URL. -/
structure Env where
  http : String → Except PyError HttpResponse
  parseJson : String → Except String Json
  parseXml : String → Except String Xml
  readCsv : String → Except PyError Table

/-- `STATUS_ERROR_CODE = 400`, the module-level constant. -/
def STATUS_ERROR_CODE : Nat := 400

/-- Python dict lookup with default `None`: `d.get(k)`. Keys are unique in a
Python dict, so the first match is the value. -/
def dictGet (fields : List (String × Json)) (k : String) : Option Json :=
  (fields.find? (fun p => p.1 = k)).map (fun p => p.2)

/-- Python subscript `j[k]` with a string key: a `KeyError` on a dict without
the key, a `TypeError` on anything that is not a dict. -/
def jsonSubscript (j : Json) (k : String) : Except PyError Json :=
  match j with
  | .obj fs =>
      match dictGet fs k with
      | some v => .ok v
      | none => .error (.keyError k)
  | _ => .error (.typeError "indices must be integers")

/-- Python iteration over a JSON value: a list yields its elements, a string
yields its one-character substrings, a dict yields its keys; numbers, booleans
and `None` are not iterable (`TypeError`). -/
def pyIter (j : Json) : Except PyError (List Json) :=
  match j with
  | .arr xs => .ok xs
  | .str s => .ok (s.data.map (fun c => Json.str (String.singleton c)))
  | .obj fs => .ok (fs.map (fun p => Json.str p.1))
  | _ => .error (.typeError "object is not iterable")

/-- `type(x) is dict`. -/
def isDict (j : Json) : Bool :=
  match j with
  | .obj _ => true
  | _ => false

/-- `re.match('^GSE.*$', s)` needs `.*` (which cannot cross a newline) to
reach a position where `$` matches: the end of the string, or just before a
single newline that ends the string. -/
def noNewlineExceptTrailing : List Char → Bool
  | [] => true
  | [_] => true
  | c :: rest => c ≠ '\n' && noNewlineExceptTrailing rest

/-- Truthiness of `re.match('^GSE.*$', s)`: the string starts with `GSE` and
the remainder contains no newline, except possibly a single trailing one. -/
def reMatchGSE (s : String) : Bool :=
  match s.data with
  | c1 :: c2 :: c3 :: rest =>
      c1 == 'G' && c2 == 'S' && c3 == 'E' && noNewlineExceptTrailing rest
  | _ => false

/-- Truthiness of `re.match('^GSE', s)` (the claim's pattern): the string
starts with `GSE`. -/
def startsWithGSE (s : String) : Bool :=
  match s.data with
  | c1 :: c2 :: c3 :: _ => c1 == 'G' && c2 == 'S' && c3 == 'E'
  | _ => false

/-- Does a character list contain the consecutive run `SRP`? -/
def listHasSRP : List Char → Bool
  | 'S' :: 'R' :: 'P' :: _ => true
  | _ :: rest => listHasSRP rest
  | [] => false

/-- Python substring test `'SRP' in s` for a string `s`. -/
def strContainsSRP (s : String) : Bool :=
  listHasSRP s.data

/-- Python membership test `'SRP' in v` for a JSON value `v`: substring test
on a string, element membership on a list, key membership on a dict,
`TypeError` otherwise. -/
def pyContainsSRP (v : Json) : Except PyError Bool :=
  match v with
  | .str s => .ok (strContainsSRP s)
  | .arr xs => .ok (xs.any (fun x => match x with | .str s => s = "SRP" | _ => false))
  | .obj fs => .ok (fs.any (fun p => p.1 = "SRP"))
  | _ => .error (.typeError "argument is not a container")

/-- `Response.raise_for_status()`: raises `requests.HTTPError` exactly for
status codes in the client-error and server-error ranges (400–599). -/
def raise_for_status (r : HttpResponse) : Except PyError Unit :=
  if 400 ≤ r.status_code ∧ r.status_code < 600 then .error (.httpError r.status_code)
  else .ok ()

/-- How `requests` renders a query-parameter value: strings as themselves,
integers via `str()`; other JSON values are not supported here. -/
def toParamString : Json → Except PyError String
  | .str s => .ok s
  | .num n => .ok (toString n)
  | _ => .error (.typeError "unsupported parameter value")

/-- The esearch URL with its query string, as built by `requests.get` from
`{**default_params, 'term': geo_accession}` (`db=gds`, `retmode=json`). -/
def esearchUrl (geo_accession : String) : String :=
  "https://eutils.ncbi.nlm.nih.gov/entrez/eutils/esearch.fcgi?db=gds&retmode=json&term=" ++ geo_accession

/-- The esummary URL with its query string, as built by `requests.get` from
`{**default_params, 'id': summary_id}`. -/
def esummaryUrl (summary_id : String) : String :=
  "https://eutils.ncbi.nlm.nih.gov/entrez/eutils/esummary.fcgi?db=gds&retmode=json&id=" ++ summary_id

/-- `','.join(accessions)`. -/
def joinComma (accessions : List String) : String :=
  String.intercalate "," accessions

/-- The efetch URL for a database and a joined accession list, as in
`f'https://eutils.ncbi.nlm.nih.gov/entrez/eutils/efetch/fcgi?db={db}&id={ids}'`. -/
def efetchUrl (db : String) (accessions : List String) : String :=
  "https://eutils.ncbi.nlm.nih.gov/entrez/eutils/efetch/fcgi?db=" ++ db ++ "&id=" ++ joinComma accessions

/-- The run-info URL of `get_srp_metadata`. -/
def runinfoUrl (srp_accession : String) : String :=
  "http://trace.ncbi.nlm.nih.gov/Traces/sra/sra.cgi?save=efetch&db=sra&rettype=runinfo&term=" ++ srp_accession

/-- The bioproject efetch URL of `request_bioproject_metadata`. -/
def bioprojectUrl (bioproject_accession : String) : String :=
  "https://eutils.ncbi.nlm.nih.gov/entrez/eutils/efetch/fcgi?db=bioproject&id=" ++ bioproject_accession

/-- The pubmed efetch URL of `request_pubmed_metadata`. -/
def pubmedUrl (project_pubmed_id : String) : String :=
  "https://eutils.ncbi.nlm.nih.gov/entrez/eutils/efetch/fcgi?db=pubmed&id=" ++ project_pubmed_id ++ "&rettype=xml"

/-- `r.json()['esearchresult']['idlist']`, then the list the `for` loop
iterates over (`iter(idlist)`). -/
def getIdItems (j : Json) : Except PyError (List Json) :=
  match jsonSubscript j "esearchresult" with
  | .error e => .error e
  | .ok es =>
      match jsonSubscript es "idlist" with
      | .error e => .error e
      | .ok il => pyIter il

/-- The inner flattening comprehension
`[x for x in [x.get('extrelations') for x in results] for x in x]`:
iterating `None` raises `TypeError`; each other value is iterated with
Python iteration semantics, left to right, first error aborting. -/
def flattenIter : List (Option Json) → Except PyError (List Json)
  | [] => .ok []
  | none :: _ => .error (.typeError "NoneType object is not iterable")
  | some j :: rest =>
      match pyIter j with
      | .error e => .error e
      | .ok xs =>
          match flattenIter rest with
          | .error e => .error e
          | .ok ys => .ok (xs ++ ys)

/-- The final comprehension
`[x['targetobject'] for x in extrelations if 'SRP' in x.get('targetobject', '')]`:
for each element, `x.get` requires a dict (`AttributeError` otherwise); the
membership test follows Python `in` semantics with default `''`; when the test
passes, the (necessarily present) `targetobject` value is collected. -/
def collectSRP : List Json → Except PyError (List Json)
  | [] => .ok []
  | x :: rest =>
      match x with
      | .obj fs =>
          let v := match dictGet fs "targetobject" with
            | some w => w
            | none => .str ""
          match pyContainsSRP v with
          | .error e => .error e
          | .ok b =>
              if b then
                match collectSRP rest with
                | .error e => .error e
                | .ok xs => .ok (v :: xs)
              else collectSRP rest
      | _ => .error (.attributeError "get")

/-- The body of the first loop iteration of `get_srp_accession_from_geo`
applied to one summary response body `j = r.json()`:
`results = [x for x in r.json()['result'].values() if type(x) is dict]`,
then the flattening of their `extrelations`, then the `targetobject`
collection. `.values()` requires `r.json()['result']` to be a dict
(`AttributeError` otherwise). -/
def extractSRPTargets (j : Json) : Except PyError (List Json) :=
  match jsonSubscript j "result" with
  | .error e => .error e
  | .ok res =>
      match res with
      | .obj fs =>
          let results := (fs.map (fun p => p.2)).filter isDict
          match flattenIter (results.map (fun x =>
              match x with
              | .obj gs => dictGet gs "extrelations"
              | _ => none)) with
          | .error e => .error e
          | .ok extrels => collectSRP extrels
      | _ => .error (.attributeError "values")

/-- `str(e)` for the wrapped re-raise message; an approximate rendering of
the Python exception text (its exact wording is not load-bearing). -/
def PyError.toMessage : PyError → String
  | .assertionError m => m
  | .notFoundSRA _ _ => "NotFoundSRA"
  | .httpError s => toString s ++ " Error"
  | .nameError n => "name " ++ n ++ " is not defined"
  | .keyError k => k
  | .typeError m => m
  | .attributeError a => "object has no attribute " ++ a
  | .jsonDecodeError m => m
  | .xmlParseError m => m
  | .pandasError m => m
  | .connectionError m => m
  | .wrappedException m => m

/-- The `except Exception as e: raise Exception(f'Failed to get SRP
accessions for {geo_accession}: {e}')` block: every exception raised inside
the `try` is replaced by the generic wrapped exception. -/
def wrapGeoFailure (geo_accession : String) :
    Except PyError (Option (List Json)) → Except PyError (Option (List Json))
  | .ok v => .ok v
  | .error e =>
      .error (.wrappedException
        ("Failed to get SRP accessions for " ++ geo_accession ++ ": " ++ e.toMessage))

/-- The `try` block of `get_srp_accession_from_geo`: esearch GET,
`raise_for_status`, JSON decode, then the `for` loop over the id list. The
loop body unconditionally ends in `return`, so only the first id is ever
processed; an empty id list falls off the end of the function, returning
`None`. -/
def geoTryBody (env : Env) (geo_accession : String) :
    List Event × Except PyError (Option (List Json)) :=
  let u1 := esearchUrl geo_accession
  match env.http u1 with
  | .error e => ([.httpGetEv u1], .error e)
  | .ok r1 =>
    match raise_for_status r1 with
    | .error e => ([.httpGetEv u1], .error e)
    | .ok _ =>
      match env.parseJson r1.content with
      | .error m => ([.httpGetEv u1], .error (.jsonDecodeError m))
      | .ok j1 =>
        match getIdItems j1 with
        | .error e => ([.httpGetEv u1], .error e)
        | .ok [] => ([.httpGetEv u1], .ok none)
        | .ok (first :: _) =>
          match toParamString first with
          | .error e => ([.httpGetEv u1], .error e)
          | .ok sid =>
            let u2 := esummaryUrl sid
            match env.http u2 with
            | .error e => ([.httpGetEv u1, .httpGetEv u2], .error e)
            | .ok r2 =>
              match raise_for_status r2 with
              | .error e => ([.httpGetEv u1, .httpGetEv u2], .error e)
              | .ok _ =>
                match env.parseJson r2.content with
                | .error m => ([.httpGetEv u1, .httpGetEv u2], .error (.jsonDecodeError m))
                | .ok j2 =>
                  match extractSRPTargets j2 with
                  | .error e => ([.httpGetEv u1, .httpGetEv u2], .error e)
                  | .ok srps => ([.httpGetEv u1, .httpGetEv u2], .ok (some srps))

/-- `get_srp_accession_from_geo`: the `^GSE.*$` pattern check (an
`AssertionError` raised before the `try`, so never wrapped), then the
search/summary chain with every inner exception re-raised as the generic
wrapped exception. -/
def get_srp_accession_from_geo (env : Env) (geo_accession : String) :
    List Event × Except PyError (Option (List Json)) :=
  if reMatchGSE geo_accession then
    let out := geoTryBody env geo_accession
    (out.1, wrapGeoFailure geo_accession out.2)
  else
    ([], .error (.assertionError (geo_accession ++ " is not a valid GEO accession")))

/-- `get_srp_metadata`: `sleep(0.5)` then `return pd.read_csv(url)` — no
status check, no exception handling; whatever `read_csv` raises propagates
unchanged. -/
def get_srp_metadata (env : Env) (srp_accession : String) :
    List Event × Except PyError Table :=
  let url := runinfoUrl srp_accession
  ([.sleepEv 500, .httpGetEv url], env.readCsv url)

/-- `parse_xml_SRA_runs`: yields `xml_content.findall('EXPERIMENT_PACKAGE')`,
the immediate children tagged `EXPERIMENT_PACKAGE`, in document order. -/
def parse_xml_SRA_runs (xml_content : Xml) : List Xml :=
  xml_content.children.filter (fun c => c.tag = "EXPERIMENT_PACKAGE")

/-- `request_fastq_from_SRA`: `sleep(0.5)`, one GET with the accessions
joined by commas, `NotFoundSRA` on status 400, and a bare `except` around
`fromstring` that turns any parse failure into `None`. -/
def request_fastq_from_SRA (env : Env) (srr_accessions : List String) :
    List Event × Except PyError (Option Xml) :=
  let url := efetchUrl "sra" srr_accessions
  let tr : List Event := [.sleepEv 500, .httpGetEv url]
  match env.http url with
  | .error e => (tr, .error e)
  | .ok resp =>
      if resp.status_code = STATUS_ERROR_CODE then
        (tr, .error (.notFoundSRA resp (.many srr_accessions)))
      else
        match env.parseXml resp.content with
        | .error _ => (tr, .ok none)
        | .ok x => (tr, .ok (some x))

/-- `request_accession_info`: `url` is assigned only when `accession_type`
is `'biosample'` or `'experiment'`; otherwise `rq.get(url)` raises
`NameError` before any request. No pacing sleep. Status 400 raises
`NotFoundSRA`; `fromstring` is not guarded, so a parse failure propagates. -/
def request_accession_info (env : Env) (accessions : List String)
    (accession_type : String) : List Event × Except PyError Xml :=
  let urlOpt : Option String :=
    if accession_type = "experiment" then some (efetchUrl "sra" accessions)
    else if accession_type = "biosample" then some (efetchUrl "biosample" accessions)
    else none
  match urlOpt with
  | none => ([], .error (.nameError "url"))
  | some url =>
      match env.http url with
      | .error e => ([.httpGetEv url], .error e)
      | .ok resp =>
          if resp.status_code = STATUS_ERROR_CODE then
            ([.httpGetEv url], .error (.notFoundSRA resp (.many accessions)))
          else
            match env.parseXml resp.content with
            | .error m => ([.httpGetEv url], .error (.xmlParseError m))
            | .ok x => ([.httpGetEv url], .ok x)

/-- `request_bioproject_metadata`: `sleep(0.5)`, one GET, `NotFoundSRA` on
status 400 (carrying the single accession string), unguarded `fromstring`. -/
def request_bioproject_metadata (env : Env) (bioproject_accession : String) :
    List Event × Except PyError Xml :=
  let url := bioprojectUrl bioproject_accession
  let tr : List Event := [.sleepEv 500, .httpGetEv url]
  match env.http url with
  | .error e => (tr, .error e)
  | .ok resp =>
      if resp.status_code = STATUS_ERROR_CODE then
        (tr, .error (.notFoundSRA resp (.single bioproject_accession)))
      else
        match env.parseXml resp.content with
        | .error m => (tr, .error (.xmlParseError m))
        | .ok x => (tr, .ok x)

/-- `request_pubmed_metadata`: `sleep(0.5)`, one GET with `rettype=xml`,
`NotFoundSRA` on status 400 (carrying the single pubmed id), unguarded
`fromstring`. -/
def request_pubmed_metadata (env : Env) (project_pubmed_id : String) :
    List Event × Except PyError Xml :=
  let url := pubmedUrl project_pubmed_id
  let tr : List Event := [.sleepEv 500, .httpGetEv url]
  match env.http url with
  | .error e => (tr, .error e)
  | .ok resp =>
      if resp.status_code = STATUS_ERROR_CODE then
        (tr, .error (.notFoundSRA resp (.single project_pubmed_id)))
      else
        match env.parseXml resp.content with
        | .error m => (tr, .error (.xmlParseError m))
        | .ok x => (tr, .ok x)

/-! ## Stub environments used to instantiate the theorems on concrete runs -/

/-- A stubbed esearch body: two internal result ids. -/
def searchJsonW : Json :=
  .obj [("esearchresult", .obj [("idlist", .arr [.str "200100", .str "200200"])])]

/-- A stubbed esummary body: a `result` dict whose only dict-valued entry has
one `extrelations` cross-reference targeting `SRP000001`. -/
def summaryJsonW : Json :=
  .obj [("result", .obj
    [("uids", .arr [.str "200100"]),
     ("200100", .obj
       [("title", .str "A study"),
        ("extrelations", .arr
          [.obj [("relationtype", .str "SRA"),
                 ("targetobject", .str "SRP000001")]])])])]

/-- The stubbed search response. -/
def respSearchW : HttpResponse := ⟨200, "searchbody"⟩

/-- The stubbed summary response. -/
def respSummaryW : HttpResponse := ⟨200, "summarybody"⟩

/-- A stub environment: a successful GEO search/summary chain for `GSE12345`,
a failing CSV endpoint, and a failing XML parser. -/
def envW : Env where
  http := fun u =>
    if u = esearchUrl "GSE12345" then .ok respSearchW
    else if u = esummaryUrl "200100" then .ok respSummaryW
    else .error (.connectionError "no stub for this URL")
  parseJson := fun c =>
    if c = "searchbody" then .ok searchJsonW
    else if c = "summarybody" then .ok summaryJsonW
    else .error "Expecting value"
  parseXml := fun _ => .error "syntax error"
  readCsv := fun _ => .error (.pandasError "ParserError")

/-- A stubbed esearch body with an empty id list. -/
def searchJsonEmpty : Json :=
  .obj [("esearchresult", .obj [("idlist", .arr [])])]

/-- A stub environment whose search for `GSE99999` returns no ids. -/
def envEmptyIds : Env where
  http := fun u =>
    if u = esearchUrl "GSE99999" then .ok ⟨200, "emptysearch"⟩
    else .error (.connectionError "no stub for this URL")
  parseJson := fun c =>
    if c = "emptysearch" then .ok searchJsonEmpty
    else .error "Expecting value"
  parseXml := fun _ => .error "syntax error"
  readCsv := fun _ => .error (.pandasError "ParserError")

/-- The stubbed universal 400 response. -/
def resp400 : HttpResponse := ⟨400, "Bad Request"⟩

/-- A stub environment whose every HTTP GET answers status 400. -/
def env400 : Env where
  http := fun _ => .ok resp400
  parseJson := fun _ => .error "Expecting value"
  parseXml := fun _ => .error "syntax error"
  readCsv := fun _ => .error (.pandasError "ParserError")

/-- The stubbed universal 200 response with a body the XML parser rejects. -/
def resp200bad : HttpResponse := ⟨200, "this is not xml"⟩

/-- A stub environment whose every HTTP GET answers status 200 with a body
that fails XML parsing. -/
def env200bad : Env where
  http := fun _ => .ok resp200bad
  parseJson := fun _ => .error "Expecting value"
  parseXml := fun _ => .error "syntax error"
  readCsv := fun _ => .error (.pandasError "ParserError")

/-- The stubbed universal 500 response. -/
def resp500 : HttpResponse := ⟨500, "Internal Server Error"⟩

/-- A stub environment whose every HTTP GET answers status 500 with a body
that fails XML parsing. -/
def env500 : Env where
  http := fun _ => .ok resp500
  parseJson := fun _ => .error "Expecting value"
  parseXml := fun _ => .error "syntax error"
  readCsv := fun _ => .error (.pandasError "ParserError")

/-- Does an outcome carry the spec's `FetchFailed`-style wrapping error (the
generic re-raised `Exception` of the GEO-resolution path, the only wrapping
the module ever performs)? -/
def isFetchWrapped {α : Type} : Except PyError α → Bool
  | .error (.wrappedException _) => true
  | _ => false

/-! ## Helper lemmas -/

/-- A string accepted by the code's full pattern `^GSE.*$` in particular
starts with `GSE`. -/
theorem startsWithGSE_of_reMatchGSE (s : String) :
    reMatchGSE s = true → startsWithGSE s = true := by
  unfold reMatchGSE startsWithGSE
  rcases s.data with _ | ⟨c1, _ | ⟨c2, _ | ⟨c3, rest⟩⟩⟩ <;> simp_all

/-- Whatever the environment answers, the trace of the `try` block of
`get_srp_accession_from_geo` starts with the esearch GET. -/
theorem geoTryBody_trace_head (env : Env) (s : String) :
    (geoTryBody env s).1.take 1 = [Event.httpGetEv (esearchUrl s)] := by
  unfold geoTryBody
  dsimp only
  repeat' split
  all_goals rfl

/-- The trace of `request_fastq_from_SRA` is always its pacing sleep followed
by its single GET, whatever the environment answers. -/
theorem request_fastq_trace (env : Env) (srrs : List String) :
    (request_fastq_from_SRA env srrs).1
      = [Event.sleepEv 500, Event.httpGetEv (efetchUrl "sra" srrs)] := by
  unfold request_fastq_from_SRA
  dsimp only
  repeat' split
  all_goals rfl

/-- The trace of `request_bioproject_metadata` is always its pacing sleep
followed by its single GET. -/
theorem request_bioproject_trace (env : Env) (b : String) :
    (request_bioproject_metadata env b).1
      = [Event.sleepEv 500, Event.httpGetEv (bioprojectUrl b)] := by
  unfold request_bioproject_metadata
  dsimp only
  repeat' split
  all_goals rfl

/-- The trace of `request_pubmed_metadata` is always its pacing sleep
followed by its single GET. -/
theorem request_pubmed_trace (env : Env) (p : String) :
    (request_pubmed_metadata env p).1
      = [Event.sleepEv 500, Event.httpGetEv (pubmedUrl p)] := by
  unfold request_pubmed_metadata
  dsimp only
  repeat' split
  all_goals rfl

/-- The trace of `request_accession_info` for the `biosample` kind is its
single GET alone: there is no pacing sleep anywhere in it. -/
theorem accession_info_trace_biosample (env : Env) (accs : List String) :
    (request_accession_info env accs "biosample").1
      = [Event.httpGetEv (efetchUrl "biosample" accs)] := by
  unfold request_accession_info
  dsimp only
  repeat' split
  all_goals simp_all

/-- The trace of `request_accession_info` for the `experiment` kind is its
single GET alone: there is no pacing sleep anywhere in it. -/
theorem accession_info_trace_experiment (env : Env) (accs : List String) :
    (request_accession_info env accs "experiment").1
      = [Event.httpGetEv (efetchUrl "sra" accs)] := by
  unfold request_accession_info
  dsimp only
  repeat' split
  all_goals simp_all

/-! ## Claims -/

/-- C1: when the GEO search returns a non-empty id list, the loop body of
`get_srp_accession_from_geo` unconditionally returns during its first
iteration: the result is exactly the SRP target identifiers collected from
the first id's summary, the remaining ids (`rest`, arbitrary here) are
silently discarded, and only two GETs happen — the esearch and the single
esummary for the first id. -/
theorem get_srp_accession_first_summary_return
    (env : Env) (geo sid : String) (r1 r2 : HttpResponse) (j1 j2 : Json)
    (rest srps : List Json)
    (hm : reMatchGSE geo = true)
    (h1 : env.http (esearchUrl geo) = .ok r1)
    (hs1 : r1.status_code < 400)
    (hj1 : env.parseJson r1.content = .ok j1)
    (hid : getIdItems j1 = .ok (Json.str sid :: rest))
    (h2 : env.http (esummaryUrl sid) = .ok r2)
    (hs2 : r2.status_code < 400)
    (hj2 : env.parseJson r2.content = .ok j2)
    (hx : extractSRPTargets j2 = .ok srps) :
    get_srp_accession_from_geo env geo
      = ([Event.httpGetEv (esearchUrl geo), Event.httpGetEv (esummaryUrl sid)],
         .ok (some srps)) := by
  have hr1 : raise_for_status r1 = .ok () := by
    unfold raise_for_status
    rw [if_neg]
    omega
  have hr2 : raise_for_status r2 = .ok () := by
    unfold raise_for_status
    rw [if_neg]
    omega
  simp [get_srp_accession_from_geo, hm, geoTryBody, h1, hr1, hj1, hid,
    toParamString, h2, hr2, hj2, hx, wrapGeoFailure]

/-- Witness for C1: the stubbed chain for `GSE12345` returns
`["SRP000001"]` from the first id's summary, discarding the second id. -/
theorem get_srp_accession_first_summary_return_witness :
    get_srp_accession_from_geo envW "GSE12345"
      = ([Event.httpGetEv (esearchUrl "GSE12345"),
          Event.httpGetEv (esummaryUrl "200100")],
         .ok (some [Json.str "SRP000001"])) :=
  get_srp_accession_first_summary_return envW "GSE12345" "200100"
    respSearchW respSummaryW searchJsonW summaryJsonW
    [Json.str "200200"] [Json.str "SRP000001"]
    rfl rfl (by decide) rfl rfl rfl (by decide) rfl rfl

/-- C2: every efetch-style operation (`request_fastq_from_SRA`,
`request_accession_info` with either valid kind, `request_bioproject_metadata`,
`request_pubmed_metadata`) raises the typed `NotFoundSRA` carrying the raw
response and the requested accession(s) when the provider answers the
designated status 400. -/
theorem efetch_status400_notFoundSRA
    (env : Env) (srrs accs : List String) (bio pub : String)
    (r1 r2 r3 r4 r5 : HttpResponse)
    (h1 : env.http (efetchUrl "sra" srrs) = .ok r1) (hs1 : r1.status_code = 400)
    (h2 : env.http (efetchUrl "biosample" accs) = .ok r2) (hs2 : r2.status_code = 400)
    (h3 : env.http (efetchUrl "sra" accs) = .ok r3) (hs3 : r3.status_code = 400)
    (h4 : env.http (bioprojectUrl bio) = .ok r4) (hs4 : r4.status_code = 400)
    (h5 : env.http (pubmedUrl pub) = .ok r5) (hs5 : r5.status_code = 400) :
    (request_fastq_from_SRA env srrs).2
        = .error (.notFoundSRA r1 (.many srrs))
  ∧ (request_accession_info env accs "biosample").2
        = .error (.notFoundSRA r2 (.many accs))
  ∧ (request_accession_info env accs "experiment").2
        = .error (.notFoundSRA r3 (.many accs))
  ∧ (request_bioproject_metadata env bio).2
        = .error (.notFoundSRA r4 (.single bio))
  ∧ (request_pubmed_metadata env pub).2
        = .error (.notFoundSRA r5 (.single pub)) := by
  refine ⟨?_, ?_, ?_, ?_, ?_⟩ <;>
    simp [request_fastq_from_SRA, request_accession_info,
      request_bioproject_metadata, request_pubmed_metadata, STATUS_ERROR_CODE,
      h1, h2, h3, h4, h5, hs1, hs2, hs3, hs4, hs5]

/-- Witness for C2: against the all-400 stub every operation raises
`NotFoundSRA` with its own accession argument and the raw 400 response. -/
theorem efetch_status400_notFoundSRA_witness :
    (request_fastq_from_SRA env400 ["SRR000001"]).2
        = .error (.notFoundSRA resp400 (.many ["SRR000001"]))
  ∧ (request_accession_info env400 ["SAMN00000001"] "biosample").2
        = .error (.notFoundSRA resp400 (.many ["SAMN00000001"]))
  ∧ (request_accession_info env400 ["SAMN00000001"] "experiment").2
        = .error (.notFoundSRA resp400 (.many ["SAMN00000001"]))
  ∧ (request_bioproject_metadata env400 "PRJNA000001").2
        = .error (.notFoundSRA resp400 (.single "PRJNA000001"))
  ∧ (request_pubmed_metadata env400 "12345678").2
        = .error (.notFoundSRA resp400 (.single "12345678")) :=
  efetch_status400_notFoundSRA env400 ["SRR000001"] ["SAMN00000001"]
    "PRJNA000001" "12345678" resp400 resp400 resp400 resp400 resp400
    rfl rfl rfl rfl rfl rfl rfl rfl rfl rfl

/-- C3: on any status other than 400, an XML parse failure makes
`request_fastq_from_SRA` return the explicit absent value `None` (no
exception), while the very same condition makes `request_accession_info`
propagate the parse error uncaught. -/
theorem xml_parse_failure_asymmetry
    (env : Env) (srrs accs : List String) (r1 r2 : HttpResponse) (m1 m2 : String)
    (h1 : env.http (efetchUrl "sra" srrs) = .ok r1)
    (hs1 : r1.status_code ≠ 400)
    (hp1 : env.parseXml r1.content = .error m1)
    (h2 : env.http (efetchUrl "biosample" accs) = .ok r2)
    (hs2 : r2.status_code ≠ 400)
    (hp2 : env.parseXml r2.content = .error m2) :
    (request_fastq_from_SRA env srrs).2 = .ok none
  ∧ (request_accession_info env accs "biosample").2
      = .error (.xmlParseError m2) := by
  constructor <;>
    simp [request_fastq_from_SRA, request_accession_info, STATUS_ERROR_CODE,
      h1, h2, hs1, hs2, hp1, hp2]

/-- Witness for C3: a 200 response whose body is not XML yields `None` from
the run path and an uncaught parse error from the accession path. -/
theorem xml_parse_failure_asymmetry_witness :
    (request_fastq_from_SRA env200bad ["SRR000001"]).2 = .ok none
  ∧ (request_accession_info env200bad ["SAMN00000001"] "biosample").2
      = .error (.xmlParseError "syntax error") :=
  xml_parse_failure_asymmetry env200bad ["SRR000001"] ["SAMN00000001"]
    resp200bad resp200bad "syntax error" "syntax error"
    rfl (by decide) rfl rfl (by decide) rfl

/-- Counterexample for C4: the efetch operations never consult statuses other
than exactly 400. Against a stub answering 500, `request_fastq_from_SRA`
returns normally (`None`): the 500 body was handed to the XML parser and no
transport error was surfaced or wrapped; `request_accession_info` likewise
hands the 500 body to the parser and fails only with the parser's own error. -/
theorem non400_not_surfaced_counterexample :
    (request_fastq_from_SRA env500 ["SRR000001"]).2 = .ok none
  ∧ (request_accession_info env500 ["SRX000001"] "experiment").2
      = .error (.xmlParseError "syntax error")
  ∧ isFetchWrapped (request_fastq_from_SRA env500 ["SRR000001"]).2 = false :=
  ⟨rfl, rfl, rfl⟩

/-- C4 as amended: in the efetch operations only the exact status 400 is
special; any response with another status (2xx or not) has its body passed
straight to the XML parser, and the outcome is entirely determined by the
parse result — no transport-level error signal is consulted or wrapped. -/
theorem non400_body_goes_to_xml_decode
    (env : Env) (srrs accs : List String) (r1 r2 : HttpResponse)
    (h1 : env.http (efetchUrl "sra" srrs) = .ok r1)
    (hs1 : r1.status_code ≠ 400)
    (h2 : env.http (efetchUrl "biosample" accs) = .ok r2)
    (hs2 : r2.status_code ≠ 400) :
    (request_fastq_from_SRA env srrs).2
      = (match env.parseXml r1.content with
         | .ok x => .ok (some x)
         | .error _ => .ok none)
  ∧ (request_accession_info env accs "biosample").2
      = (match env.parseXml r2.content with
         | .ok x => .ok x
         | .error m => .error (.xmlParseError m)) := by
  constructor
  · simp only [request_fastq_from_SRA, STATUS_ERROR_CODE, h1]
    rw [if_neg hs1]
    cases env.parseXml r1.content <;> rfl
  · simp only [request_accession_info, STATUS_ERROR_CODE, h2, String.reduceEq,
      reduceIte]
    rw [if_neg hs2]
    cases env.parseXml r2.content <;> rfl

/-- Witness for C4's amended statement, at the all-500 stub. -/
theorem non400_body_goes_to_xml_decode_witness :
    (request_fastq_from_SRA env500 ["SRR000013"]).2 = .ok none
  ∧ (request_accession_info env500 ["SAMN00000013"] "biosample").2
      = .error (.xmlParseError "syntax error") :=
  non400_body_goes_to_xml_decode env500 ["SRR000013"] ["SAMN00000013"]
    resp500 resp500 rfl (by decide) rfl (by decide)

/-- Counterexample for C5: the string `"GSE\nA"` matches the claim's pattern
`^GSE` (it starts with `GSE`), yet the code's check — `re.match` with the
full pattern `^GSE.*$`, whose `.*` cannot cross the interior newline —
rejects it, so validation does not pass: the function fails with the
`AssertionError` (`InvalidAccession`) and issues no request. -/
theorem gse_newline_rejected_counterexample :
    startsWithGSE "GSE\nA" = true
  ∧ get_srp_accession_from_geo envW "GSE\nA"
      = ([], .error (.assertionError "GSE\nA is not a valid GEO accession")) :=
  ⟨rfl, rfl⟩

/-- C5 as amended: every string that does not start with `GSE` fails with the
`AssertionError` before any network request (empty trace); validation passes
exactly for strings accepted by the code's full pattern `^GSE.*$` (start with
`GSE`, no interior newline), and for those the first observable event is the
esearch GET. -/
theorem geo_validation_amended (env : Env) (s : String) :
    (startsWithGSE s = false →
      get_srp_accession_from_geo env s
        = ([], .error (.assertionError (s ++ " is not a valid GEO accession"))))
  ∧ (reMatchGSE s = true →
      (get_srp_accession_from_geo env s).1.take 1
        = [Event.httpGetEv (esearchUrl s)]) := by
  constructor
  · intro h
    have hm : reMatchGSE s = false := by
      cases hr : reMatchGSE s
      · rfl
      · rw [startsWithGSE_of_reMatchGSE s hr] at h
        exact absurd h (by simp)
    simp [get_srp_accession_from_geo, hm]
  · intro h
    simp only [get_srp_accession_from_geo, h, if_true]
    exact geoTryBody_trace_head env s

/-- Witness for C5's amended statement: `"SRX999"` is rejected with no
request; `"GSE12345"` passes validation and the esearch GET is issued. -/
theorem geo_validation_amended_witness :
    get_srp_accession_from_geo envW "SRX999"
      = ([], .error (.assertionError "SRX999 is not a valid GEO accession"))
  ∧ (get_srp_accession_from_geo envW "GSE12345").1.take 1
      = [Event.httpGetEv (esearchUrl "GSE12345")] :=
  ⟨(geo_validation_amended envW "SRX999").1 rfl,
   (geo_validation_amended envW "GSE12345").2 rfl⟩

/-- Counterexample for C6: `request_accession_info` (the spec's
`fetchAccessionXml`) performs its network call with no pacing delay at all —
its whole trace is the single GET, with no sleep event anywhere. -/
theorem accession_info_no_sleep_counterexample :
    (request_accession_info env200bad ["SAMN00000001"] "biosample").1
      = [Event.httpGetEv (efetchUrl "biosample" ["SAMN00000001"])]
  ∧ Event.sleepEv 500
      ∉ (request_accession_info env200bad ["SAMN00000001"] "biosample").1 := by
  refine ⟨rfl, ?_⟩
  rw [accession_info_trace_biosample]
  simp

/-- C6 as amended: a fixed ~0.5-unit pacing delay precedes the network call
of `get_srp_metadata`, `request_fastq_from_SRA`, `request_bioproject_metadata`
and `request_pubmed_metadata`, but not of `request_accession_info`, whose
trace (for either valid kind) is its GET alone. -/
theorem pacing_delay_amended (env : Env) (a b p : String)
    (srrs accs : List String) :
    (get_srp_metadata env a).1
        = [Event.sleepEv 500, Event.httpGetEv (runinfoUrl a)]
  ∧ (request_fastq_from_SRA env srrs).1
        = [Event.sleepEv 500, Event.httpGetEv (efetchUrl "sra" srrs)]
  ∧ (request_bioproject_metadata env b).1
        = [Event.sleepEv 500, Event.httpGetEv (bioprojectUrl b)]
  ∧ (request_pubmed_metadata env p).1
        = [Event.sleepEv 500, Event.httpGetEv (pubmedUrl p)]
  ∧ (request_accession_info env accs "biosample").1
        = [Event.httpGetEv (efetchUrl "biosample" accs)]
  ∧ (request_accession_info env accs "experiment").1
        = [Event.httpGetEv (efetchUrl "sra" accs)] :=
  ⟨rfl, request_fastq_trace env srrs, request_bioproject_trace env b,
   request_pubmed_trace env p, accession_info_trace_biosample env accs,
   accession_info_trace_experiment env accs⟩

/-- Counterexample for C7: when the run-info fetch/parse fails,
`get_srp_metadata` does not raise any typed wrapping failure carrying the
accession — the raw underlying error (here a pandas parse error) propagates
unchanged. -/
theorem srp_metadata_raw_error_counterexample :
    get_srp_metadata envW "SRP000001"
      = ([Event.sleepEv 500, Event.httpGetEv (runinfoUrl "SRP000001")],
         .error (.pandasError "ParserError"))
  ∧ isFetchWrapped (get_srp_metadata envW "SRP000001").2 = false :=
  ⟨rfl, rfl⟩

/-- C7 as amended: `get_srp_metadata` performs no error handling — whatever
error the underlying tabular fetch raises propagates to the caller unchanged
(no `FetchFailed`-style wrapping, no accession attached). -/
theorem srp_metadata_propagates_raw (env : Env) (a : String) (e : PyError)
    (h : env.readCsv (runinfoUrl a) = .error e) :
    (get_srp_metadata env a).2 = .error e
  ∧ isFetchWrapped (get_srp_metadata env a).2
      = isFetchWrapped (Except.error (α := Table) e) := by
  constructor
  · simp [get_srp_metadata, h]
  · simp [get_srp_metadata, h]

/-- Witness for C7's amended statement. -/
theorem srp_metadata_propagates_raw_witness :
    (get_srp_metadata envW "SRP000999").2
        = .error (.pandasError "ParserError")
  ∧ isFetchWrapped (get_srp_metadata envW "SRP000999").2
      = isFetchWrapped (Except.error (α := Table) (.pandasError "ParserError")) :=
  srp_metadata_propagates_raw envW "SRP000999" (.pandasError "ParserError") rfl

/-- C8: `parse_xml_SRA_runs` yields a subsequence of the tree's immediate
children (hence in document order), of length exactly the number of children
tagged `EXPERIMENT_PACKAGE`, and every yielded element carries that tag; the
function is pure, so it does not mutate the tree and re-invoking it on the
same tree yields the same sequence. -/
theorem parse_xml_SRA_runs_spec (t : Xml) :
    List.Sublist (parse_xml_SRA_runs t) t.children
  ∧ (parse_xml_SRA_runs t).length
      = t.children.countP (fun c => decide (c.tag = "EXPERIMENT_PACKAGE"))
  ∧ (parse_xml_SRA_runs t).all
      (fun c => decide (c.tag = "EXPERIMENT_PACKAGE")) = true := by
  refine ⟨List.filter_sublist _, ?_, ?_⟩
  · rw [parse_xml_SRA_runs, List.countP_eq_length_filter]
  · rw [List.all_eq_true]
    intro c hc
    exact (List.mem_filter.mp hc).2

/-- C9: when the search succeeds but its id list is empty, the loop body of
`get_srp_accession_from_geo` never runs and the function falls off the end:
it returns `None` — not an empty accession list and not an error — after the
single esearch GET. -/
theorem get_srp_accession_empty_idlist_none
    (env : Env) (geo : String) (r1 : HttpResponse) (j1 : Json)
    (hm : reMatchGSE geo = true)
    (h1 : env.http (esearchUrl geo) = .ok r1)
    (hs1 : r1.status_code < 400)
    (hj1 : env.parseJson r1.content = .ok j1)
    (hid : getIdItems j1 = .ok []) :
    get_srp_accession_from_geo env geo
      = ([Event.httpGetEv (esearchUrl geo)], .ok none) := by
  have hr1 : raise_for_status r1 = .ok () := by
    unfold raise_for_status
    rw [if_neg]
    omega
  simp [get_srp_accession_from_geo, hm, geoTryBody, h1, hr1, hj1, hid,
    wrapGeoFailure]

/-- Witness for C9: the stub whose search for `GSE99999` returns an empty id
list makes the function return `None`. -/
theorem get_srp_accession_empty_idlist_none_witness :
    get_srp_accession_from_geo envEmptyIds "GSE99999"
      = ([Event.httpGetEv (esearchUrl "GSE99999")], .ok none) :=
  get_srp_accession_empty_idlist_none envEmptyIds "GSE99999"
    ⟨200, "emptysearch"⟩ searchJsonEmpty rfl rfl (by decide) rfl rfl

/-- C10: for an `accession_type` that is neither `'biosample'` nor
`'experiment'`, no branch assigns `url`, so `rq.get(url)` raises `NameError`
(an unbound local, not any typed failure) and no HTTP request is issued (the
trace is empty). -/
theorem accession_info_invalid_type_nameError
    (env : Env) (accessions : List String) (accession_type : String)
    (hb : accession_type ≠ "biosample") (he : accession_type ≠ "experiment") :
    request_accession_info env accessions accession_type
      = ([], .error (.nameError "url")) := by
  simp [request_accession_info, hb, he]

/-- Witness for C10: the kind `"sample"` is invalid, so the operation raises
`NameError` with an empty trace. -/
theorem accession_info_invalid_type_nameError_witness :
    request_accession_info envW ["SAMN00000001"] "sample"
      = ([], .error (.nameError "url")) :=
  accession_info_invalid_type_nameError envW ["SAMN00000001"] "sample"
    (by decide) (by decide)
